import Mathlib

/-!
Verification of the `grass-gis-notebooks` repository.

The repository consists of two Jupyter notebooks:

* a GRASS GIS tutorial notebook ("Geospatial Analysis II: buffers, cost
  surfaces, least cost path"), a straight-line script of Python statements
  and IPython shell escapes (`!command` lines); and
* `python-grass-addon/07_next_steps.ipynb`, which contains a `gunittest`
  test class `TestViewshedPoint`.

The tutorial notebook is embedded below as the list `notebookStmts` of
statements in source order, one `Stmt` per executable Python statement or
shell line, translated cell by cell from the notebook source.  Execution is
modelled by `runTrace`, which executes statements in program order and
models the error semantics of the host languages: a Python-level call
(`urllib.urlretrieve`, `subprocess.check_output`, `grass.script.setup.init`,
`os.remove`) raises an exception on failure and stops the run, while an
IPython `!` shell escape discards the exit status of the external command,
so a failing shell-line command does not stop the run.
-/

namespace GrassNB

/-- One executable statement of the tutorial notebook.  The constructors
mirror the statement forms that occur in the notebook source:

* `assignConst v n` — `v = n` (the introductory demo cell);
* `assignMul v a b` — `v = a * b` (the introductory demo cell);
* `printVal msg v` — `print "msg", v`;
* `shell line` — an IPython shell escape `!line`;
* `checkOutput v args` — `v = subprocess.check_output(args).strip()`;
* `envSet n val` — `os.environ[n] = 'val'` with a literal value;
* `envSetDyn n var` — `os.environ[n] = var` with a Python variable value;
* `pathAppend p` — `sys.path.append(p)`;
* `libConfig fn` — a configuration call into the scripting library
  (`gs.set_raise_on_error(True)`, `gs.set_capture_stderr(True)`);
* `sessionInit v gb gisdb location mapset` — `v = gsetup.init(gb, gisdb, location, mapset)`;
* `download url file` — `urllib.urlretrieve(url, file)`;
* `displayImage file` — `Image(filename="file")` shown inline;
* `removeFile var` — `os.remove(var)` (the session rc file teardown). -/
inductive Stmt where
  | importMod (m : String)
  | assignConst (v : String) (n : Int)
  | assignMul (v a b : String)
  | printVal (msg v : String)
  | shell (line : String)
  | checkOutput (v : String) (args : List String)
  | envSet (name value : String)
  | envSetDyn (name var : String)
  | pathAppend (p : String)
  | libConfig (fn : String)
  | sessionInit (v gb gisdb location mapset : String)
  | download (url file : String)
  | displayImage (file : String)
  | removeFile (var : String)
deriving DecidableEq, Repr

/-- Base URL of the course data directory used by the download cell. -/
def urlBase : String :=
  "http://ncsu-geoforall-lab.github.io/geospatial-modeling-course/grass/data/"

set_option maxRecDepth 4000000
set_option maxHeartbeats 1600000

/-- Demo cell: "This is a quick introduction into Jupyter Notebook." -/
def demoCell : List Stmt := [
  .assignConst "a" 6,
  .assignConst "b" 7,
  .assignMul "c" "a" "b",
  .printVal "Answer is" "c",
  .shell "echo \"Answer is $c\""
]

/-- Cells: create the GRASS GIS runtime environment and session, set the
default font, overwrite mode, error policy, and the display render
environment variables. -/
def initCells : List Stmt := [
  .importMod "os",
  .importMod "sys",
  .importMod "subprocess",
  .importMod "IPython.display",
  .checkOutput "gisbase" ["grass", "--config", "path"],
  .envSetDyn "GISBASE" "gisbase",
  .pathAppend "gisbase/etc/python",
  .importMod "grass.script",
  .importMod "grass.script.setup",
  .sessionInit "rcfile" "gisbase" "/home/main/grassdata"
    "nc_spm_08_grass7" "user1",
  .envSet "GRASS_FONT" "sans",
  .envSet "GRASS_OVERWRITE" "1",
  .libConfig "gs.set_raise_on_error(True)",
  .libConfig "gs.set_capture_stderr(True)",
  .envSet "GRASS_RENDER_IMMEDIATE" "cairo",
  .envSet "GRASS_RENDER_FILE_READ" "TRUE",
  .envSet "GRASS_LEGEND_FILE" "legend.txt"
]

/-- Cell: "a proper directory is already set, download files". -/
def downloadCell : List Stmt := [
  .importMod "urllib",
  .download (urlBase ++ "noise_cats.txt") "noise_cats.txt",
  .download (urlBase ++ "friction_rules.txt") "friction_rules.txt",
  .download (urlBase ++ "friction_color.txt") "friction_color.txt",
  .download (urlBase ++ "fire_pt.txt") "fire_pt.txt",
  .download (urlBase ++ "lostperson.txt") "lostperson.txt",
  .download (urlBase ++ "noise_cats.txt") "noise_cats.txt",
  .download (urlBase ++ "fire_pt.txt") "fire_pt.txt",
  .download (urlBase ++ "friction_rules.txt") "friction_rules.txt",
  .download (urlBase ++ "lostperson.txt") "lostperson.txt"
]

/-- Buffer section: developed areas close to lakes, noise from highways,
schools affected by noise. -/
def bufferCells : List Stmt := [
  .shell "g.region swwake_30m -p",
  .shell "r.buffer lakes output=lakes_buff distances=60,120,240,500",
  .shell "d.rast lakes_buff",
  .displayImage "map.png",
  .shell "r.category landuse96_28m",
  .shell "r.mapcalc \"developed_lake = if(landuse96_28m==1 || landuse96_28m==2, lakes_buff, null())\"",
  .shell "r.support developed_lake raster=lakes_buff",
  .shell "d.rast developed_lake",
  .shell "d.vect streets_wake color=grey",
  .shell "d.rast lakes",
  .shell "d.legend -c developed_lake use=2,3,4,5 at=5,25,2,5",
  .displayImage "map.png",
  .shell "r.report -n lakes_buff units=h",
  .shell "r.report -n developed_lake units=h",
  .shell "g.region raster=landuse96_28m -p",
  .shell "r.buffer roadsmajor output=roads_buffers distances=250,500,2500",
  .shell "r.mapcalc \"noise = if(landuse96_28m==1 || landuse96_28m==2, roads_buffers, null())\"",
  .shell "r.colors noise color=ryg",
  .shell "r.category noise rules=noise_cats.txt separator=:",
  .shell "r.report -n noise units=p,h",
  .shell "d.rast noise",
  .shell "d.vect streets_wake",
  .shell "d.legend -c noise at=5,25,2,5",
  .displayImage "map.png",
  .shell "v.to.rast schools_wake output=schoolscap_10m use=attr attrcolumn=CORECAPACI type=point",
  .shell "r.mapcalc \"schools_noise = if(int(schoolscap_10m) && roads_buffers == 2, int(schoolscap_10m), null())\"",
  .shell "r.univar schools_noise",
  .shell "r.to.vect schools_noise output=schools_noise type=point",
  .shell "d.vect schools_wake icon=basic/circle size=10 fill_color=blue",
  .shell "d.vect schools_noise size=14 fill_color=cyan icon=basic/circle color=black",
  .displayImage "map.png"
]

/-- Cost-surface section: cumulative cost surface to an accident site based
on speed limits, travel time from selected firestations, least cost paths. -/
def costCells : List Stmt := [
  .shell "g.region swwake_30m -p",
  .shell "v.info -c streets_wake",
  .shell "v.to.rast streets_wake output=streets_speedtmp use=attr attrcolumn=SPEED type=line",
  .shell "r.mapcalc \"streets_speed = if(isnull(streets_speedtmp),5,streets_speedtmp)\"",
  .shell "r.info streets_speed",
  .shell "r.colors streets_speed color=gyr",
  .shell "d.rast streets_speed",
  .shell "d.legend streets_speed at=5,40,2,5 use=5,25,35,45,65",
  .displayImage "map.png",
  .shell "r.mapcalc \"streets_travtime = 0.018641/streets_speed\"",
  .shell "r.cost -k streets_travtime output=streets_cost start_coordinates=634886,224328",
  .shell "v.in.ascii input=fire_pt.txt output=fire_pt separator=space",
  .shell "r.contour streets_cost output=streets_cost_04 step=0.04",
  .shell "r.colors streets_cost color=elevation",
  .shell "d.rast streets_cost",
  .shell "d.vect fire_pt color=red icon=basic/marker size=20",
  .shell "d.vect streets_cost_04",
  .shell "d.legend streets_cost at=5,50,2,5",
  .displayImage "map.png",
  .shell "g.copy vector=firestations,myfirestations",
  .shell "v.info -c myfirestations",
  .shell "v.what.rast myfirestations raster=streets_cost column=CVLAG",
  .shell "v.out.ascii input=myfirestations separator=space precision=3 columns=ID,LOCATION,CVLAG where=\"CVLAG<0.1 AND CVLAG>0\"",
  .shell "r.drain -n input=streets_cost output=route_20Westernb start_coordinates=635940.3,225912.8",
  .shell "r.drain -n input=streets_cost output=route_52Hollyb start_coordinates=633178.2,221353.0",
  .shell "r.colors route_20Westernb color=grey",
  .shell "r.colors route_52Hollyb color=grey",
  .shell "d.erase",
  .shell "d.rast streets_cost",
  .shell "d.vect fire_pt color=red icon=basic/marker size=20",
  .shell "d.rast route_20Westernb",
  .shell "d.rast route_52Hollyb",
  .displayImage "map.png",
  .shell "r.describe route_20Westernb",
  .shell "r.describe route_52Hollyb"
]

/-- Accessibility section: friction map and walking cost for the search for
a lost person. -/
def walkCells : List Stmt := [
  .shell "g.region swwake_30m -p",
  .shell "r.category landclass96",
  .shell "r.recode landclass96 out=friction rules=friction_rules.txt",
  .shell "r.mapcalc \"friction2 = if(streets_speed > 6, 0.1, friction)\"",
  .shell "r.colors friction2 rules=friction_color.txt",
  .shell "d.erase",
  .shell "d.rast friction2",
  .shell "d.legend friction2 at=5,50,2,5",
  .displayImage "map.png",
  .shell "r.walk -k elevation=elev_ned_30m friction=friction2 output=walkcost start_coordinates=635576,216485 lambda=0.5 max_cost=10000",
  .shell "r.contour walkcost output=walkcost step=1000",
  .shell "v.in.ascii input=lostperson.txt output=lostperson separator=comma",
  .shell "d.erase",
  .shell "d.rast lakes",
  .shell "d.rast walkcost",
  .shell "d.vect streets_wake",
  .shell "d.vect walkcost color=brown",
  .shell "d.vect walkcost color=red where=level=6000 width=2",
  .shell "d.vect lostperson size=20 color=black fill_color=black icon=basic/marker",
  .shell "d.legend walkcost at=5,50,2,5",
  .displayImage "map.png"
]

/-- Final section: cost surfaces to line features, and the session
teardown cell ("end the GRASS session"). -/
def distCells : List Stmt := [
  .shell "g.region swwake_30m -p",
  .shell "v.to.rast roadsmajor output=roadsmajor use=val type=line",
  .shell "r.mapcalc \"area_one = 1\"",
  .shell "r.cost input=area_one output=dist_toroad start_rast=roadsmajor",
  .shell "r.mapcalc \"dist_meters = dist_toroad * (ewres() + nsres())/2.\"",
  .shell "r.mapcalc \"dist_class = int(dist_meters/500)\"",
  .shell "d.erase",
  .shell "d.rast dist_class",
  .shell "d.vect roadsmajor",
  .displayImage "map.png",
  .shell "d.vect streets_wake color=black",
  .shell "d.vect roadsmajor color=red",
  .displayImage "map.png",
  .removeFile "rcfile"
]

/-- The tutorial notebook: every executable statement, in source order. -/
def notebookStmts : List Stmt :=
  demoCell ++ initCells ++ downloadCell ++ bufferCells ++ costCells ++
    walkCells ++ distCells

/-- Does the list of characters `p` occur as an initial segment of `s`? -/
def hasPrefixL : List Char → List Char → Bool
  | [], _ => true
  | _ :: _, [] => false
  | p :: ps, s :: ss => p == s && hasPrefixL ps ss

/-- String front-matching, used to classify command lines by module name. -/
def hasPrefixS (p s : String) : Bool := hasPrefixL p.data s.data

/-- String end-matching (used to detect backgrounded shell lines). -/
def hasSuffixS (p s : String) : Bool := hasPrefixL p.data.reverse s.data.reverse

/-- Statement at position `i` of the notebook. -/
def stmtAt (i : Nat) : Option Stmt := notebookStmts.get? i

/-- Statements whose failure raises a Python exception and therefore stops
the run: `urllib.urlretrieve`, `subprocess.check_output`,
`grass.script.setup.init` and `os.remove` all raise on failure.  An IPython
`!` shell escape runs the external command, captures its output and
discards its exit status, so a failing shell-line command does not raise. -/
def raisesOnFail : Stmt → Bool
  | .shell _ => false
  | .checkOutput _ _ => true
  | .download _ _ => true
  | .sessionInit _ _ _ _ _ => true
  | .removeFile _ => true
  | _ => false

/-- Statements that invoke an external command (a shell line, or the
`subprocess.check_output` query that locates the GRASS installation). -/
def isExternalCall : Stmt → Bool
  | .shell _ => true
  | .checkOutput _ _ => true
  | _ => false

/-- Is the statement at position `i` a shell line? -/
def isShellAt (l : List Stmt) (i : Nat) : Bool :=
  match l.get? i with
  | some (.shell _) => true
  | _ => false

/-- Execute the statements in order, starting at position `k`, under a
failure oracle `fails`.  The result is the list of positions of the
statements that were started.  A statement that raises on failure and fails
ends the run right there; any other statement executes and the run moves on
to the next statement. -/
def runTrace (fails : Nat → Bool) : Nat → List Stmt → List Nat
  | _, [] => []
  | i, s :: rest =>
    if raisesOnFail s && fails i then [i]
    else i :: runTrace fails (i + 1) rest

/-- The environment built from the `os.environ` assignments among the first
`i` statements; later assignments shadow earlier ones.  The value recorded
for a dynamic assignment is the name of the Python variable assigned. -/
def envAt (i : Nat) : List (String × String) :=
  (notebookStmts.take i).foldl
    (fun e s =>
      match s with
      | .envSet n v => (n, v) :: e
      | .envSetDyn n v => (n, v) :: e
      | _ => e) []

/-- First-match lookup in the environment association list. -/
def lookupEnv : List (String × String) → String → Option String
  | [], _ => none
  | (n, v) :: rest, m => if n == m then some v else lookupEnv rest m

/-- Does the statement assign environment variable `n`? -/
def setsVar (n : String) : Stmt → Bool
  | .envSet m _ => m == n
  | .envSetDyn m _ => m == n
  | _ => false

/-- The literal values assigned to environment variable `n` over the run,
in order. -/
def envValuesSet (n : String) : List String :=
  notebookStmts.filterMap fun s =>
    match s with
    | .envSet m v => if m == n then some v else none
    | _ => none

/-- Shell lines that invoke a GRASS module (`g.*`, `r.*`, `v.*`, `d.*`). -/
def isGrassCmd : Stmt → Bool
  | .shell line =>
      hasPrefixS "g." line || hasPrefixS "r." line ||
        hasPrefixS "v." line || hasPrefixS "d." line
  | _ => false

/-- Is the statement at position `i` a GRASS module shell line? -/
def isGrassCmdAt (i : Nat) : Bool :=
  match stmtAt i with
  | some s => isGrassCmd s
  | none => false

/-- Shell lines that invoke a GRASS display module (`d.*`). -/
def isDisplayCmd : Stmt → Bool
  | .shell line => hasPrefixS "d." line
  | _ => false

/-- Is the statement at position `i` a GRASS display module shell line? -/
def isDisplayCmdAt (i : Nat) : Bool :=
  match stmtAt i with
  | some s => isDisplayCmd s
  | none => false

/-- GRASS_RENDER_IMMEDIATE values that select a file-based (non-interactive)
render driver. -/
def fileRenderDrivers : List String := ["cairo", "png", "ps", "html"]

/-- The file a display module renders into at position `i`:
`GRASS_RENDER_FILE` if set, otherwise the default name `map.png`
("set display modules to render into a file (named map.png by default)"). -/
def renderFileAt (i : Nat) : String :=
  match lookupEnv (envAt i) "GRASS_RENDER_FILE" with
  | some f => f
  | none => "map.png"

/-- The five pipeline phases named by the specification. -/
inductive Phase where
  | init | fetch | analysis | render | teardown
deriving DecidableEq, Repr

/-- Phase of a statement.  Session/environment setup is `init`, a download
is `fetch`, a non-display GRASS module shell line is `analysis`, a display
module shell line or an inline image display is `render`, and the rc-file
removal is `teardown`.  The introductory demo-cell statements (including
its `echo` shell line) belong to no pipeline phase. -/
def phase : Stmt → Option Phase
  | .importMod _ => some .init
  | .checkOutput _ _ => some .init
  | .envSet _ _ => some .init
  | .envSetDyn _ _ => some .init
  | .pathAppend _ => some .init
  | .libConfig _ => some .init
  | .sessionInit _ _ _ _ _ => some .init
  | .download _ _ => some .fetch
  | .shell line =>
      if hasPrefixS "d." line then some .render
      else if hasPrefixS "g." line || hasPrefixS "r." line ||
          hasPrefixS "v." line then some .analysis
      else none
  | .displayImage _ => some .render
  | .removeFile _ => some .teardown
  | .assignConst _ _ => none
  | .assignMul _ _ _ => none
  | .printVal _ _ => none

/-- Rank of a phase in the strict order claimed by the specification:
initialize, then fetch, then analysis, then render, then teardown. -/
def phaseRank : Phase → Nat
  | .init => 0
  | .fetch => 1
  | .analysis => 2
  | .render => 3
  | .teardown => 4

/-- Rank with the analysis and render phases merged: the order that the
notebook actually follows, rendering interleaved with analysis. -/
def amendedRank : Phase → Nat
  | .init => 0
  | .fetch => 1
  | .analysis => 2
  | .render => 2
  | .teardown => 3

/-- Is the list of ranks nondecreasing? -/
def ranksSorted : List Nat → Bool
  | [] => true
  | [_] => true
  | a :: b :: t => decide (a ≤ b) && ranksSorted (b :: t)

/-- The sequence of phases of the notebook statements, in order. -/
def phaseSeq : List Phase := notebookStmts.filterMap phase

/-- Download statements of the notebook that write the file `f`. -/
def downloadsOf (f : String) : List Stmt :=
  notebookStmts.filter fun s =>
    match s with
    | .download _ file => file == f
    | _ => false

/-- Is the statement a download? -/
def isDownload : Stmt → Bool
  | .download _ _ => true
  | _ => false

/-- The five auxiliary text files named by the notebook. -/
def auxFiles : List String :=
  ["noise_cats.txt", "friction_rules.txt", "friction_color.txt",
   "fire_pt.txt", "lostperson.txt"]

/-- The statement categories the specification allows the notebook's own
code: environment-variable setup, a file download, an external command
invocation, or an image display. -/
def isOrchestration : Stmt → Bool
  | .envSet _ _ => true
  | .envSetDyn _ _ => true
  | .download _ _ => true
  | .shell _ => true
  | .checkOutput _ _ => true
  | .displayImage _ => true
  | _ => false

/-- Session bookkeeping statements: imports, the `sys.path` extension, the
scripting-library configuration calls, session initialization, and the
rc-file removal. -/
def isBookkeeping : Stmt → Bool
  | .importMod _ => true
  | .pathAppend _ => true
  | .libConfig _ => true
  | .sessionInit _ _ _ _ _ => true
  | .removeFile _ => true
  | _ => false

/-- Statements of the introductory demo cell that compute or print values
in Python itself. -/
def isDemoPython : Stmt → Bool
  | .assignConst _ _ => true
  | .assignMul _ _ _ => true
  | .printVal _ _ => true
  | _ => false

/-- First-match lookup in an integer binding list. -/
def lookupInt : List (String × Int) → String → Option Int
  | [], _ => none
  | (n, v) :: rest, m => if n == m then some v else lookupInt rest m

/-- The Python variable bindings produced by the demo-cell assignments:
the notebook itself evaluates `a = 6`, `b = 7`, `c = a * b`. -/
def demoBindings : List (String × Int) :=
  notebookStmts.foldl
    (fun e s =>
      match s with
      | .assignConst v n => (v, n) :: e
      | .assignMul v a b =>
        match lookupInt e a, lookupInt e b with
        | some x, some y => (v, x * y) :: e
        | _, _ => e
      | _ => e) []

/-- An observable effect of one statement of the notebook's own code. -/
inductive Effect where
  | envWrite (name : String)
  | fileWrite (path : String)
  | fileRemove (path : String)
  | interpState (what : String)
  | externalProc (cmd : String)
  | inlineOut (what : String)
deriving DecidableEq, Repr

/-- The effects of each statement form, read off the source: environment
assignments write the process environment; downloads write a file (at a
path relative to the working directory); `gsetup.init` writes the session
rc file and binds `rcfile`; `os.remove(rcfile)` removes that file; imports,
variable assignments, `sys.path.append` and the scripting-library
configuration calls mutate the Python interpreter state; shell lines spawn
an external process; `print` and `Image` produce inline notebook output. -/
def effects : Stmt → List Effect
  | .importMod m => [.interpState ("import " ++ m)]
  | .assignConst v _ => [.interpState ("bind " ++ v)]
  | .assignMul v _ _ => [.interpState ("bind " ++ v)]
  | .printVal _ _ => [.inlineOut "stdout"]
  | .shell line => [.externalProc line, .inlineOut "stdout"]
  | .checkOutput v args =>
      [.externalProc (String.intercalate " " args), .interpState ("bind " ++ v)]
  | .envSet n _ => [.envWrite n]
  | .envSetDyn n _ => [.envWrite n]
  | .pathAppend _ => [.interpState "sys.path"]
  | .libConfig fn => [.interpState fn]
  | .sessionInit v _ _ _ _ =>
      [.fileWrite "gisrc", .interpState ("bind " ++ v)]
  | .download _ f => [.fileWrite f]
  | .displayImage f => [.inlineOut f]
  | .removeFile _ => [.fileRemove "gisrc"]

/-- Effects within the frame the claim allows: environment variables of the
process and files (the working-directory text files and images, and the
session rc file).  Effects of the spawned external toolkit process land in
its working directory and database; inline notebook output is not a
mutation.  Mutations of the Python interpreter state beyond environment
variables are outside this frame. -/
def allowedFrame : Effect → Bool
  | .envWrite _ => true
  | .fileWrite _ => true
  | .fileRemove _ => true
  | .externalProc _ => true
  | .inlineOut _ => true
  | .interpState _ => false

/-- Is the effect a Python-interpreter-state mutation? -/
def isInterpState : Effect → Bool
  | .interpState _ => true
  | _ => false

/-- All effects of the whole run, in order. -/
def runEffects : List Effect := (notebookStmts.map effects).flatten

/-- The environment-variable names written over the run, in order. -/
def envWriteNames : List String :=
  runEffects.filterMap fun e =>
    match e with
    | .envWrite n => some n
    | _ => none

/-- The file paths written by the notebook's own code, in order. -/
def fileWritePaths : List String :=
  runEffects.filterMap fun e =>
    match e with
    | .fileWrite p => some p
    | _ => none

/-- The file paths removed by the notebook's own code, in order. -/
def fileRemovePaths : List String :=
  runEffects.filterMap fun e =>
    match e with
    | .fileRemove p => some p
    | _ => none

/-- Python callables invoked by each statement form (shell lines run an
external command through the IPython shell escape, not a Python callable
of the notebook's code). -/
def invokedCallables : Stmt → List String
  | .importMod _ => []
  | .assignConst _ _ => []
  | .assignMul _ _ _ => []
  | .printVal _ _ => []
  | .shell _ => []
  | .checkOutput _ _ => ["subprocess.check_output"]
  | .envSet _ _ => []
  | .envSetDyn _ _ => []
  | .pathAppend _ => ["sys.path.append", "os.path.join"]
  | .libConfig fn => [fn]
  | .sessionInit _ _ _ _ _ => ["grass.script.setup.init"]
  | .download _ _ => ["urllib.urlretrieve"]
  | .displayImage _ => ["IPython.display.Image"]
  | .removeFile _ => ["os.remove"]

/-- Python concurrency primitives: none of them is invoked anywhere in the
notebook. -/
def concurrencyPrimitives : List String :=
  ["threading.Thread", "multiprocessing.Process", "multiprocessing.Pool",
   "concurrent.futures.ThreadPoolExecutor",
   "concurrent.futures.ProcessPoolExecutor", "asyncio.run",
   "asyncio.create_task", "asyncio.ensure_future", "os.fork",
   "subprocess.Popen"]

/-- Creating a map in the toolkit's map store: with `GRASS_OVERWRITE=1`
("overwrite existing maps") an existing map of the same name is replaced;
without it, creating an existing map is an error (`none`). -/
def createMap (overwrite : Bool) (store : List String) (name : String) :
    Option (List String) :=
  if store.contains name then
    if overwrite then some (name :: store.erase name) else none
  else some (name :: store)

/-- Map-name text used by the `TestViewshedPoint` class of
`07_next_steps.ipynb`: `prefix = 'test_rviewshedpoints_'`. -/
def tvNamePart : String := "test_rviewshedpoints_"

/-- Maps present when a test method finishes, all created through the class
naming scheme: `setUpClass` creates the input points, and `setUp` runs
`r.viewshed.points` with `output_points` and `viewshed_basename` built from
the class name text, producing the output points and one viewshed raster
per input point (`npoints=10`).  The test methods themselves only list maps
and assert, creating nothing. -/
def setUpCreatedMaps : List String :=
  [tvNamePart ++ "input_points",
   tvNamePart ++ "output_points",
   tvNamePart ++ "output_viewshed_1",
   tvNamePart ++ "output_viewshed_2",
   tvNamePart ++ "output_viewshed_3",
   tvNamePart ++ "output_viewshed_4",
   tvNamePart ++ "output_viewshed_5",
   tvNamePart ++ "output_viewshed_6",
   tvNamePart ++ "output_viewshed_7",
   tvNamePart ++ "output_viewshed_8",
   tvNamePart ++ "output_viewshed_9",
   tvNamePart ++ "output_viewshed_10"]

/-- The `tearDown` step of `TestViewshedPoint`:
`g.remove type=raster,vector pattern=test_rviewshedpoints_* -f`
force-removes every raster and vector map whose name matches the pattern,
leaving exactly the maps whose names do not start with the class text. -/
def tearDownRemove (store : List String) : List String :=
  store.filter fun n => !(hasPrefixS tvNamePart n)

/-- A raster cell position. -/
def Cell : Type := Nat × Nat

/-- `r.mapcalc "streets_speed = if(isnull(streets_speedtmp),5,streets_speedtmp)"`:
per cell, a null cell of the rasterized street speeds becomes the constant
5, and a non-null cell keeps its value. -/
def streets_speed (streets_speedtmp : Cell → Option ℚ) (c : Cell) :
    Option ℚ :=
  match streets_speedtmp c with
  | none => some 5
  | some v => some v

/-- The constant of the travel-time expression, 0.018641 hours per cell at
unit speed. -/
def travtimeCoef : ℚ := 18641 / 1000000

/-- `r.mapcalc "streets_travtime = 0.018641/streets_speed"`: per cell, the
division is applied where the speed layer has a value; a null divisor cell
would make the result cell null. -/
def streets_travtime (speed : Cell → Option ℚ) (c : Cell) : Option ℚ :=
  (speed c).map fun v => travtimeCoef / v

/-- The property claim C1 states: whenever an external command invoked by
the notebook fails, the run stops at that command and no later statement
executes. -/
def StopsOnEveryFailure : Prop :=
  ∀ (fails : Nat → Bool) (i : Nat) (s : Stmt),
    stmtAt i = some s → isExternalCall s = true → fails i = true →
    ∀ j ∈ runTrace fails 0 notebookStmts, j ≤ i

/-- The property claim C2 states: each of the five auxiliary text files is
fetched by exactly one download call over the whole run. -/
def DownloadedExactlyOnce : Prop :=
  ∀ f ∈ auxFiles, (downloadsOf f).length = 1

/-- The property claim C3 states: the five pipeline phases occur in the
strict order initialize, fetch, analysis, render, teardown. -/
def PhasesStrictlyOrdered : Prop :=
  ranksSorted (phaseSeq.map phaseRank) = true

/-- The property claim C4 states: every statement the notebook executes is
environment-variable setup, a file download, an external command
invocation, or an image display. -/
def OnlyOrchestration : Prop :=
  ∀ s ∈ notebookStmts, isOrchestration s = true

/-- The property claim C5 states: the notebook's own code mutates nothing
but environment variables of its process and files of the toolkit's
working directory (including the session rc file). -/
def FrameEnvAndFilesOnly : Prop :=
  ∀ s ∈ notebookStmts, ∀ e ∈ effects s, allowedFrame e = true

/-- The combined render check for claim C6, over every statement position:
a display command always runs with a file-based render driver selected by
`GRASS_RENDER_IMMEDIATE`, its render-target file is the default `map.png`,
and each maximal run of display commands is immediately followed by an
inline display of that same file. -/
def displayRenderCheck : Bool :=
  (List.range notebookStmts.length).all fun i =>
    !(isDisplayCmdAt i) ||
      ((match lookupEnv (envAt i) "GRASS_RENDER_IMMEDIATE" with
        | some d => fileRenderDrivers.contains d
        | none => false) &&
       (renderFileAt i == "map.png") &&
       (isDisplayCmdAt (i + 1) ||
        (match stmtAt (i + 1) with
         | some (.displayImage f) => f == "map.png"
         | _ => false)))

/-- The overwrite-mode check for claim C8: at every GRASS module shell
line, the accumulated environment maps `GRASS_OVERWRITE` to `1`. -/
def overwriteEnvCheck : Bool :=
  (List.range notebookStmts.length).all fun i =>
    !(isGrassCmdAt i) ||
      (lookupEnv (envAt i) "GRASS_OVERWRITE" == some "1")

end GrassNB

namespace GrassNB

set_option maxRecDepth 4000000
set_option maxHeartbeats 1600000

/-- Executing statements in order from position `k`, under a failure oracle
that makes no raising statement fail, starts every statement: the trace is
exactly the positions `k, k+1, ...` in program order. -/
theorem runTrace_complete (fails : Nat → Bool) (l : List Stmt) :
    ∀ (k : Nat),
      (∀ i s, l.get? i = some s → raisesOnFail s = true → fails (k + i) = false) →
      runTrace fails k l = List.range' k l.length := by
  induction l with
  | nil => intro k _; simp [runTrace]
  | cons s rest ih =>
    intro k h
    have h0 : (raisesOnFail s && fails k) = false := by
      cases hr : raisesOnFail s
      · simp
      · have hk := h 0 s rfl hr
        simp only [Nat.add_zero] at hk
        simp [hk]
    have hrest := ih (k + 1) (fun i t hg hr => by
      have e : k + 1 + i = k + (i + 1) := by omega
      rw [e]
      exact h (i + 1) t hg hr)
    simp [runTrace, h0, hrest, List.range'_succ]

/-- Claim C1 is false as stated: a failing shell-line command does not stop
the run.  Concretely, under the failure oracle that fails exactly the
shell line `r.buffer lakes output=lakes_buff distances=60,120,240,500`
(statement 33), the next command `d.rast lakes_buff` (statement 34) still
executes, because the IPython shell escape discards the exit status. -/
theorem c1_counterexample : ¬ StopsOnEveryFailure := by
  intro h
  have h34 := h (fun k => k == 33) 33
    (.shell "r.buffer lakes output=lakes_buff distances=60,120,240,500")
    (by decide) (by decide) (by decide) 34 (by decide)
  exact absurd h34 (by decide)

/-- Claim C1 amended: the raise-and-stop error policy applies to the
Python-level calls of the notebook, not to shell lines.  If only shell-line
statements fail, the run never stops early: every one of the notebook's
statements still executes, in program order. -/
theorem c1_amended (fails : Nat → Bool)
    (h : ∀ i, fails i = true → isShellAt notebookStmts i = true) :
    runTrace fails 0 notebookStmts = List.range notebookStmts.length := by
  rw [List.range_eq_range']
  apply runTrace_complete
  intro i s hg hr
  cases hf : fails (0 + i)
  · rfl
  · exfalso
    have hs := h (0 + i) hf
    rw [Nat.zero_add] at hs
    unfold isShellAt at hs
    rw [hg] at hs
    cases s <;> simp_all [raisesOnFail]

/-- Witness for the amended claim C1: with the oracle failing exactly at
the shell line 33, the whole notebook still executes. -/
theorem c1_amended_witness :
    (∀ i : Nat, ((i == 33) : Bool) = true → isShellAt notebookStmts i = true) ∧
      runTrace (fun k => k == 33) 0 notebookStmts =
        List.range notebookStmts.length := by
  have h : ∀ i : Nat, ((i == 33) : Bool) = true →
      isShellAt notebookStmts i = true := by
    intro i hi
    have hi33 : i = 33 := by simpa using hi
    subst hi33
    decide
  exact ⟨h, c1_amended (fun k => k == 33) h⟩

/-- Claim C2 is false as stated: the download cell of the notebook fetches
`noise_cats.txt` twice (and likewise `friction_rules.txt`, `fire_pt.txt`
and `lostperson.txt`), so not every auxiliary file is fetched by exactly
one download call. -/
theorem c2_counterexample :
    (downloadsOf "noise_cats.txt").length = 2 ∧ ¬ DownloadedExactlyOnce := by
  refine ⟨by decide, ?_⟩
  intro h
  exact absurd (h "noise_cats.txt" (by decide)) (by decide)

/-- Claim C2 amended: each download statement is a single straight-line
call with no retry construct, but the download cell repeats four of the
five fetches: `noise_cats.txt`, `friction_rules.txt`, `fire_pt.txt` and
`lostperson.txt` are each fetched twice, `friction_color.txt` once, nine
download calls in total. -/
theorem c2_amended :
    (downloadsOf "noise_cats.txt").length = 2 ∧
    (downloadsOf "friction_rules.txt").length = 2 ∧
    (downloadsOf "friction_color.txt").length = 1 ∧
    (downloadsOf "fire_pt.txt").length = 2 ∧
    (downloadsOf "lostperson.txt").length = 2 ∧
    (notebookStmts.filter isDownload).length = 9 := by
  refine ⟨by decide, by decide, by decide, by decide, by decide, by decide⟩

/-- Claim C3 is false as stated: rendering is not a phase that follows all
analysis commands.  Statement 34 (`d.rast lakes_buff`, a render step)
precedes statement 36 (`r.category landuse96_28m`, an analysis step), so
the phase sequence is not ordered by the strict ranks. -/
theorem c3_counterexample :
    stmtAt 34 = some (.shell "d.rast lakes_buff") ∧
    phase (.shell "d.rast lakes_buff") = some .render ∧
    stmtAt 36 = some (.shell "r.category landuse96_28m") ∧
    phase (.shell "r.category landuse96_28m") = some .analysis ∧
    ¬ PhasesStrictlyOrdered := by
  refine ⟨by decide, by decide, by decide, by decide, ?_⟩
  unfold PhasesStrictlyOrdered
  decide

/-- Claim C3 amended: initialization strictly precedes all fetches, the
fetches strictly precede all analysis and render steps, analysis and
rendering are interleaved, and teardown (removing the session rc file)
happens exactly once, as the very last statement. -/
theorem c3_amended :
    ranksSorted (phaseSeq.map amendedRank) = true ∧
    (notebookStmts.filter fun s =>
        match phase s with
        | some .teardown => true
        | _ => false).length = 1 ∧
    stmtAt (notebookStmts.length - 1) = some (.removeFile "rcfile") := by
  refine ⟨by decide, by decide, by decide⟩

/-- Claim C4 is false as stated: the introductory demo cell is Python
computation, not orchestration.  Statement 2 is `c = a * b`, which is none
of the four allowed statement forms, and the run itself produces its
result: the demo bindings evaluate `c` to 42, which statement 3 prints. -/
theorem c4_counterexample :
    stmtAt 2 = some (.assignMul "c" "a" "b") ∧
    isOrchestration (.assignMul "c" "a" "b") = false ∧
    lookupInt demoBindings "c" = some 42 ∧
    stmtAt 3 = some (.printVal "Answer is" "c") ∧
    ¬ OnlyOrchestration := by
  refine ⟨by decide, by decide, by decide, by decide, ?_⟩
  intro h
  exact absurd (h (.assignMul "c" "a" "b") (by decide)) (by decide)

/-- Claim C4 amended: every statement of the notebook is
environment-variable setup, a file download, an external command
invocation, or an image display, except for the four Python statements of
the introductory demo cell (which are confined to the first five
statements) and session bookkeeping (imports, the `sys.path` extension,
scripting-library configuration, session initialization and the rc-file
removal). -/
theorem c4_amended :
    (notebookStmts.all fun s =>
        isOrchestration s || isDemoPython s || isBookkeeping s) = true ∧
    (notebookStmts.filter isDemoPython).length = 4 ∧
    ((notebookStmts.drop 5).all fun s => !isDemoPython s) = true := by
  refine ⟨by decide, by decide, by decide⟩

/-- Claim C5 is false as stated: statement 11,
`sys.path.append(os.path.join(gisbase, "etc", "python"))`, is the
notebook's own code mutating the interpreter's module search path, which
is process state that is neither an environment variable nor a file of the
working directory. -/
theorem c5_counterexample :
    stmtAt 11 = some (.pathAppend "gisbase/etc/python") ∧
    effects (.pathAppend "gisbase/etc/python") = [.interpState "sys.path"] ∧
    allowedFrame (.interpState "sys.path") = false ∧
    ¬ FrameEnvAndFilesOnly := by
  refine ⟨by decide, by decide, by decide, ?_⟩
  intro h
  exact absurd
    (h (.pathAppend "gisbase/etc/python") (by decide)
      (.interpState "sys.path") (by decide))
    (by decide)

/-- Claim C5 amended: besides Python interpreter state it configures at
startup (the `sys.path` extension, module imports, scripting-library flags
and its own variable bindings), the notebook's own code mutates only
environment variables and files: the environment writes are exactly the
six GRASS variables, the file writes are exactly the session rc file and
the five auxiliary text files (four of them twice), and the only file
removal is the session rc file at the end. -/
theorem c5_amended :
    (notebookStmts.all fun s =>
        (effects s).all fun e => allowedFrame e || isInterpState e) = true ∧
    envWriteNames = ["GISBASE", "GRASS_FONT", "GRASS_OVERWRITE",
      "GRASS_RENDER_IMMEDIATE", "GRASS_RENDER_FILE_READ",
      "GRASS_LEGEND_FILE"] ∧
    fileWritePaths = ["gisrc", "noise_cats.txt", "friction_rules.txt",
      "friction_color.txt", "fire_pt.txt", "lostperson.txt",
      "noise_cats.txt", "fire_pt.txt", "friction_rules.txt",
      "lostperson.txt"] ∧
    fileRemovePaths = ["gisrc"] := by
  refine ⟨by decide, by decide, by decide, by decide⟩

/-- Claim C6: the render driver `GRASS_RENDER_IMMEDIATE` is set exactly
once, at startup, to the file-based `cairo` driver, `GRASS_RENDER_FILE` is
never set so the render target stays the default `map.png`, every display
command runs with that file-based driver and target (so no display command
opens an interactive display), and each maximal run of display commands is
immediately followed by an inline display of `map.png`. -/
theorem c6_render_to_file :
    (notebookStmts.filter (setsVar "GRASS_RENDER_IMMEDIATE")).length = 1 ∧
    envValuesSet "GRASS_RENDER_IMMEDIATE" = ["cairo"] ∧
    (notebookStmts.filter (setsVar "GRASS_RENDER_FILE")).length = 0 ∧
    displayRenderCheck = true := by
  refine ⟨by decide, by decide, by decide, by decide⟩

/-- Claim C7: the notebook is single-threaded and strictly sequential: no
statement invokes a Python concurrency primitive, no shell line is
backgrounded, and the execution trace of the run is exactly the statement
positions in program order, each statement (and the external call it makes,
which blocks until completion) finishing before the next begins. -/
theorem c7_sequential :
    (notebookStmts.all fun s =>
        (invokedCallables s).all fun f => !concurrencyPrimitives.contains f) = true ∧
    (notebookStmts.all fun s =>
        match s with
        | .shell line => !hasSuffixS " &" line
        | _ => true) = true ∧
    runTrace (fun _ => false) 0 notebookStmts =
      List.range notebookStmts.length := by
  refine ⟨by decide, by decide, ?_⟩
  rw [List.range_eq_range']
  exact runTrace_complete (fun _ => false) notebookStmts 0 (fun _ _ _ _ => rfl)

/-- Claim C8: `GRASS_OVERWRITE` is assigned exactly once over the run, with
the literal value `1`, every GRASS module shell line executes with
`GRASS_OVERWRITE=1` in its environment, and in overwrite mode creating a
map never fails: a map of an existing name is replaced, not rejected. -/
theorem c8_overwrite :
    (notebookStmts.filter (setsVar "GRASS_OVERWRITE")).length = 1 ∧
    envValuesSet "GRASS_OVERWRITE" = ["1"] ∧
    overwriteEnvCheck = true ∧
    ∀ (store : List String) (name : String),
      (createMap true store name).isSome = true := by
  refine ⟨by decide, by decide, by decide, ?_⟩
  intro store name
  unfold createMap
  split <;> simp

/-- Claim C9: the `tearDown` step of `TestViewshedPoint` force-removes
every map whose name matches the class name text, whatever maps exist;
hence none of the maps created through the class naming scheme during a
test method is still present when the next test method's `setUp` runs. -/
theorem c9_teardown_removes :
    (∀ (store : List String), ∀ n ∈ tearDownRemove store,
        hasPrefixS tvNamePart n = false) ∧
    (∀ (store : List String), ∀ m ∈ setUpCreatedMaps,
        m ∉ tearDownRemove store) := by
  have h1 : ∀ (store : List String), ∀ n ∈ tearDownRemove store,
      hasPrefixS tvNamePart n = false := by
    intro store n hn
    have h2 := (List.mem_filter.mp hn).2
    simpa using h2
  refine ⟨h1, ?_⟩
  intro store m hm hmem
  have hall : ∀ x ∈ setUpCreatedMaps, hasPrefixS tvNamePart x = true := by
    decide
  have hp := hall m hm
  have hq := h1 store m hmem
  rw [hp] at hq
  exact absurd hq (by decide)

/-- Witness for claim C9: the output points map created by `setUp` is gone
after `tearDown` runs on the full store of created maps. -/
theorem c9_teardown_removes_witness :
    ((tvNamePart ++ "output_points") ∈ setUpCreatedMaps) ∧
      (tvNamePart ++ "output_points") ∉ tearDownRemove setUpCreatedMaps :=
  ⟨by decide,
    c9_teardown_removes.2 setUpCreatedMaps (tvNamePart ++ "output_points")
      (by decide)⟩

/-- Claim C10: the map-algebra step that builds the speed layer replaces
every null cell of the rasterized street speeds with 5, so for every cell
the speed layer has a value and the travel-time division `0.018641 / speed`
is applied to that value, never to a null cell. -/
theorem c10_no_null_divisor :
    ∀ (streets_speedtmp : Cell → Option ℚ) (c : Cell),
      ∃ v : ℚ, streets_speed streets_speedtmp c = some v ∧
        streets_travtime (streets_speed streets_speedtmp) c =
          some (travtimeCoef / v) := by
  intro tmp c
  cases h : tmp c with
  | none =>
    refine ⟨5, ?_, ?_⟩ <;> simp [streets_speed, streets_travtime, h]
  | some v =>
    refine ⟨v, ?_, ?_⟩ <;> simp [streets_speed, streets_travtime, h]

end GrassNB
